import Mathlib

/-!
Verification of the session-aggregation core and the query-log recorder of
the snuba repository.  The session merge reducer, bucketed aggregator,
window/granularity validator and subscription registrar are modelled from
the specification, since their implementation is exercised only through
tests in the sources; the query-log recorder is embedded from
snuba/querylog.
-/

namespace Sessions

/-- Modelled from the spec: the enumerated session status.  The event
normalizer, missing from the sources, maps textual or numeric status
tokens to this enumeration. -/
inductive SessionStatus where
  | ok
  | exited
  | errored
  | abnormal
  | crashed
deriving DecidableEq, Repr

/-- Modelled from the spec: the errored category of statuses, contrasted
with ok and exited. -/
def erroredCategory : SessionStatus → Bool
  | .errored => true
  | .abnormal => true
  | .crashed => true
  | _ => false

/-- Modelled from the spec: a canonical session event as produced by the
event normalizer, missing from the sources.  Timestamps are seconds. -/
structure SessionEvent where
  org_id : Nat
  project_id : Nat
  session_id : String
  distinct_id : String
  status : SessionStatus
  errors : Nat
  quantity : Nat
  seq : Nat
  started : Nat
  received : Nat
deriving DecidableEq, Repr

/-- Modelled from the spec: a session identifier is absent, marking the
record as pre-aggregated, when it is empty or the zero identifier. -/
def noSessionId (s : String) : Bool :=
  s = "" || s = "00000000-0000-0000-0000-000000000000"

/-- Modelled from the spec: the last-writer-wins merge of two updates for
one logical session.  The event with the larger sequence number wins; ties
are broken by the later received timestamp, and otherwise the event seen
first is kept, deterministically for a fixed input order. -/
def mergeSession (a b : SessionEvent) : SessionEvent :=
  if a.seq < b.seq then b
  else if b.seq = a.seq ∧ a.received < b.received then b
  else a

/-- Modelled from the spec: the session merge reducer, a pure fold over
the updates sharing one session identifier. -/
def reduceSession : List SessionEvent → Option SessionEvent
  | [] => none
  | e :: es => some (es.foldl mergeSession e)

/-- Modelled from the spec: the events that contribute to aggregation.
Individually reported events are reduced to one authoritative event per
distinct session identifier; pre-aggregated events bypass reduction and
flow through unchanged. -/
def contributingEvents (events : List SessionEvent) : List SessionEvent :=
  let individual := events.filter (fun e => !noSessionId e.session_id)
  let pre := events.filter (fun e => noSessionId e.session_id)
  let ids := (individual.map (fun e => e.session_id)).dedup
  (ids.filterMap
    (fun i => reduceSession (individual.filter (fun e => e.session_id = i)))) ++ pre

/-- Modelled from the spec: the bucket key of an event at granularity `g`
seconds, the floor of `started / g` times `g`. -/
def bucketOf (g : Nat) (e : SessionEvent) : Nat :=
  e.started / g * g

/-- Modelled from the spec: the contributing events that fall into the
bucket starting at `b`. -/
def bucketEvents (g b : Nat) (events : List SessionEvent) : List SessionEvent :=
  events.filter (fun e => bucketOf g e = b)

/-- Modelled from the spec: the per-bucket counters returned by the
aggregator. -/
structure BucketCounters where
  sessions : Nat
  sessions_errored : Nat
  users : Nat
  users_errored : Nat
deriving DecidableEq, Repr

/-- Modelled from the spec: the distinct non-empty user identifiers seen
in a list of events; presence, not weight, determines membership. -/
def distinctUsers (events : List SessionEvent) : List String :=
  (events.filterMap
    (fun e => if e.distinct_id = "" then none else some e.distinct_id)).dedup

/-- Modelled from the spec: the counters of one bucket, computed from the
events contributing to it: weighted sums for sessions, distinct-set
cardinalities for users. -/
def computeBucket (events : List SessionEvent) : BucketCounters :=
  { sessions := (events.map (fun e => e.quantity)).sum
    sessions_errored :=
      ((events.filter (fun e => erroredCategory e.status)).map
        (fun e => e.quantity)).sum
    users := (distinctUsers events).length
    users_errored :=
      (distinctUsers (events.filter (fun e => erroredCategory e.status))).length }

/-- Modelled from the spec: the events whose started timestamp falls in
the queried window. -/
def windowEvents (tFrom tTo : Nat) (events : List SessionEvent) : List SessionEvent :=
  events.filter (fun e => tFrom ≤ e.started && e.started < tTo)

/-- Insertion of a value into an ascending list, keeping it ascending. -/
def insertAsc (x : Nat) : List Nat → List Nat
  | [] => [x]
  | y :: ys => if x ≤ y then x :: y :: ys else y :: insertAsc x ys

/-- Ascending insertion sort. -/
def sortAsc (l : List Nat) : List Nat :=
  l.foldr insertAsc []

/-- Modelled from the spec: the non-empty bucket starts of the
contributing events, in ascending order. -/
def bucketStarts (g : Nat) (events : List SessionEvent) : List Nat :=
  sortAsc ((events.map (bucketOf g)).dedup)

/-- Modelled from the spec: the bucketed aggregator for window
`[tFrom, tTo)` at granularity `g`: one row per non-empty bucket, ascending
by bucket start, holding the bucket start and its counters. -/
def aggregate (tFrom tTo g : Nat) (events : List SessionEvent) :
    List (Nat × BucketCounters) :=
  let evs := contributingEvents (windowEvents tFrom tTo events)
  (bucketStarts g evs).map (fun b => (b, computeBucket (bucketEvents g b evs)))

/-- Modelled from the spec: the unbucketed aggregate over a window, one
row per project scope, a single project here. -/
def aggregateTotals (tFrom tTo : Nat) (events : List SessionEvent) : BucketCounters :=
  computeBucket (contributingEvents (windowEvents tFrom tTo events))

/-- An hour-aligned window start used by the concrete test scenarios. -/
def manualStart : Nat := 1599998400

/-- The manual-events scenario of the tests: one individually reported
session updated from status ok (seq 0) to status errored with 123 errors
(seq 123), one individually reported exited session with no user, and
three pre-aggregated cohorts of quantities 9 errored, 5 exited with a
user, and 4 exited. -/
def manualSessionEvents : List SessionEvent :=
  let session_1 := "b3ef3211-58a4-4b36-a9a1-5a55df0d9aae"
  let session_2 := "b3ef3211-58a4-4b36-a9a1-5a55df0d9aaf"
  let user_1 := "b3ef3211-58a4-4b36-a9a1-5a55df0d9aae"
  let user_2 := "b3ef3211-58a4-4b36-a9a1-5a55df0d9aaf"
  [ { org_id := 1, project_id := 1, session_id := session_1,
      distinct_id := user_1, status := .ok, errors := 0, quantity := 1,
      seq := 0, started := manualStart, received := manualStart },
    { org_id := 1, project_id := 1, session_id := session_1,
      distinct_id := user_1, status := .errored, errors := 123, quantity := 1,
      seq := 123, started := manualStart, received := manualStart },
    { org_id := 1, project_id := 1, session_id := session_2,
      distinct_id := "", status := .exited, errors := 0, quantity := 1,
      seq := 0, started := manualStart, received := manualStart },
    { org_id := 1, project_id := 1, session_id := "",
      distinct_id := "", status := .errored, errors := 0, quantity := 9,
      seq := 0, started := manualStart, received := manualStart },
    { org_id := 1, project_id := 1, session_id := "",
      distinct_id := user_2, status := .exited, errors := 0, quantity := 5,
      seq := 0, started := manualStart, received := manualStart },
    { org_id := 1, project_id := 1, session_id := "",
      distinct_id := "", status := .exited, errors := 0, quantity := 4,
      seq := 0, started := manualStart, received := manualStart } ]

/-- The bucketed scenario of the tests: events whose started timestamps
have offsets of 0, 13 and 24 minutes from the hour-aligned window start:
one individually reported exited session at offset 13 minutes, a
pre-aggregated exited cohort of quantity 5 and a pre-aggregated errored
cohort of quantity 2 at offset 0, and a pre-aggregated errored cohort of
quantity 2 at offset 24 minutes, all carrying the same user. -/
def bucketedSessionEvents : List SessionEvent :=
  let user := "b3ef3211-58a4-4b36-a9a1-5a55df0d9aaf"
  let nilSession := "00000000-0000-0000-0000-000000000000"
  [ { org_id := 1, project_id := 1,
      session_id := "8333339f-5675-4f89-a9a0-1c935255ab58",
      distinct_id := user, status := .exited, errors := 0, quantity := 1,
      seq := 0, started := manualStart + 780, received := manualStart },
    { org_id := 1, project_id := 1, session_id := nilSession,
      distinct_id := user, status := .exited, errors := 0, quantity := 5,
      seq := 0, started := manualStart, received := manualStart },
    { org_id := 1, project_id := 1, session_id := nilSession,
      distinct_id := user, status := .errored, errors := 1, quantity := 2,
      seq := 0, started := manualStart, received := manualStart },
    { org_id := 1, project_id := 1, session_id := nilSession,
      distinct_id := user, status := .errored, errors := 1, quantity := 2,
      seq := 0, started := manualStart + 1440, received := manualStart } ]

/-- Two updates to one session, used to instantiate the reduction theorem
at a concrete input. -/
def sampleReductionEvents : List SessionEvent :=
  [ { org_id := 1, project_id := 1, session_id := "s1", distinct_id := "u1",
      status := .ok, errors := 0, quantity := 1, seq := 0,
      started := manualStart, received := manualStart },
    { org_id := 1, project_id := 1, session_id := "s1", distinct_id := "u1",
      status := .errored, errors := 123, quantity := 1, seq := 123,
      started := manualStart, received := manualStart } ]

/-- Modelled from the spec: a structured query rejection, reported to the
caller with a type tag and a message. -/
structure QueryRejected where
  type : String
  message : String
deriving DecidableEq, Repr

/-- Modelled from the spec: the window/granularity validator, missing from
the sources: a granularity at minute resolution or finer restricts the
queried span to at most 7 hours. -/
def validateGranularityWindow (tFrom tTo g : Nat) : Option String :=
  if g ≤ 60 ∧ tTo - tFrom > 7 * 3600 then
    some ("Minute-resolution queries are restricted to a 7-hour time window.")
  else
    Option.none

/-- Modelled from the spec: a sessions query run: validation happens
strictly before the aggregator executes, and a rejection short-circuits
the request as a structured invalid_query error. -/
def runSessionsQuery (tFrom tTo g : Nat) (events : List SessionEvent) :
    Except QueryRejected (List (Nat × BucketCounters)) :=
  match validateGranularityWindow tFrom tTo g with
  | some msg => .error ⟨"invalid_query", msg⟩
  | Option.none => .ok (aggregate tFrom tTo g events)

/-- Modelled from the spec: one selected output column of a candidate
alert query, carrying the names of the function invocations appearing in
it; the expression grammar itself is owned by the external query
parsing collaborator. -/
structure SelectedColumn where
  invocations : List String
deriving DecidableEq, Repr

/-- Modelled from the spec: a candidate alert-query definition, as its
selected output columns. -/
structure SubscriptionQuery where
  selected : List SelectedColumn
deriving DecidableEq, Repr

/-- Modelled from the spec: a subscription create request. -/
structure SubscriptionRequest where
  project_id : Nat
  time_window : Nat
  resolution : Nat
  query : SubscriptionQuery
deriving DecidableEq, Repr

/-- Modelled from the spec: the number of aggregation function invocations
appearing in the query's selected output columns, for a given
classification of function names as aggregations, owned by the external
function registry. -/
def aggregationCount (isAggregation : String → Bool) (q : SubscriptionQuery) : Nat :=
  (q.selected.map (fun c => (c.invocations.filter isAggregation).length)).sum

/-- Modelled from the spec: the subscription registrar, missing from the
sources: reject a query with more than 2 aggregations in the select,
otherwise assign the identifier formed of the partition derived from the
project and the freshly generated unique token, separated by a slash. -/
def createSubscription (isAggregation : String → Bool) (partitionOf : Nat → Nat)
    (token : String) (req : SubscriptionRequest) : Except QueryRejected String :=
  if aggregationCount isAggregation req.query > 2 then
    .error ⟨"invalid_query", "A maximum of 2 aggregations are allowed in the select"⟩
  else
    .ok (toString (partitionOf req.project_id) ++ "/" ++ token)

/-- The classification of aggregation function names used by the concrete
subscription scenario. -/
def sampleIsAggregation (n : String) : Bool :=
  n = "if" || n = "identity"

/-- The valid subscription request of the tests: two selected columns with
one aggregation invocation each. -/
def sampleGoodRequest : SubscriptionRequest :=
  { project_id := 1, time_window := 600, resolution := 60,
    query := ⟨[⟨["if", "greater", "divide"]⟩, ⟨["identity"]⟩]⟩ }

/-- The rejected subscription request of the tests: a third selected
column adds a third aggregation invocation. -/
def sampleBadRequest : SubscriptionRequest :=
  { project_id := 1, time_window := 600, resolution := 60,
    query := ⟨[⟨["if", "greater", "divide"]⟩, ⟨["identity"]⟩, ⟨["identity"]⟩]⟩ }

end Sessions

namespace Querylog

/-- The query status enumeration referenced by snuba/querylog: its
defining module is outside the sources; the recorder uses its value
string as the status tag and names the error and invalid-request
members. -/
inductive QueryStatus where
  | success
  | error
  | rateLimited
  | invalidRequest
deriving DecidableEq, Repr

/-- The status tag string of a query status. -/
def QueryStatus.value : QueryStatus → String
  | .success => "success"
  | .error => "error"
  | .rateLimited => "rate-limited"
  | .invalidRequest => "invalid-request"

/-- The parts of the parsed query object the recorder reads: the final
flag and the experiments mapping. -/
structure SnubaQuery where
  get_final : Bool
  get_experiments : List (String × String)
deriving DecidableEq, Repr

/-- The parts of the request object the recorder reads: the optional
referrer and the parsed query. -/
structure Request where
  referrer : Option String
  query : SnubaQuery
deriving DecidableEq, Repr

/-- The parts of the timer the recorder reads directly: its duration
group; the timing samples it forwards to the metrics sink stay inside the
external timer object. -/
structure Timer where
  get_duration_group : String
deriving DecidableEq, Repr

/-- The query metadata the recorder forwards: its status and the
dictionary written to the query-log state. -/
structure SnubaQueryMetadata where
  status : QueryStatus
  to_dict : List (String × String)
deriving DecidableEq, Repr

/-- The settings flag read by the recorder. -/
structure Settings where
  RECORD_QUERIES : Bool
deriving DecidableEq, Repr

/-- One call of timer.send_metrics_to, carrying its tags and mark tags. -/
structure MetricsSend where
  tags : List (String × String)
  markTags : List (String × String)
deriving DecidableEq, Repr

/-- The observable effects of one recorder call: dictionaries written to
the query-log state, metrics sent to the sink, and tracing tags set. -/
structure Effects where
  querylogRecords : List (List (String × String))
  metricsSends : List MetricsSend
  tracingTags : List (String × String)
deriving DecidableEq, Repr

/-- Python str of a boolean, as applied to the final flag. -/
def pyStr (b : Bool) : String :=
  if b then "True" else "False"

/-- Python coalescing of the referrer: both a missing and an empty
referrer become the literal string none. -/
def referrerOrNone : Option String → String
  | Option.none => "none"
  | some s => if s = "" then "none" else s

/-- The tracing tags set by _add_tags: when the current hub has a span,
the duration group, a timeout tag for the over-30-seconds group, and one
experiment tag per experiment when a request is given. -/
def _add_tags (hasSpan : Bool) (timer : Timer) (request : Option Request) :
    List (String × String) :=
  if hasSpan then
    let durationGroup := timer.get_duration_group
    [("duration_group", durationGroup)]
      ++ (if durationGroup = ">30s" then [("timeout", "too_long")] else [])
      ++ (match request with
          | some req => req.query.get_experiments.map
              (fun p => ("exp-" ++ p.1, p.2))
          | Option.none => [])
  else []

/-- The record_query entry point of snuba/querylog: when recording is
enabled it writes the metadata dictionary to the query-log state, sends
the timer's metrics tagged with status, referrer and final flag, marking
with final flag and referrer, and sets the tracing tags. -/
def record_query (settings : Settings) (hasSpan : Bool) (request : Request)
    (timer : Timer) (query_metadata : SnubaQueryMetadata) : Effects :=
  if settings.RECORD_QUERIES then
    let final := pyStr request.query.get_final
    let referrer := referrerOrNone request.referrer
    { querylogRecords := [query_metadata.to_dict]
      metricsSends := [{ tags := [("status", query_metadata.status.value),
                                  ("referrer", referrer),
                                  ("final", final)]
                         markTags := [("final", final), ("referrer", referrer)] }]
      tracingTags := _add_tags hasSpan timer (some request) }
  else ⟨[], [], []⟩

/-- The shared failure-recording path of snuba/querylog: when recording is
enabled it sends the timer's metrics tagged with status and referrer and
sets the tracing tags, writing nothing to the query-log state. -/
def _record_failure_building_request (settings : Settings) (hasSpan : Bool)
    (status : QueryStatus) (timer : Timer) (referrer : Option String) : Effects :=
  if settings.RECORD_QUERIES then
    { querylogRecords := []
      metricsSends := [{ tags := [("status", status.value),
                                  ("referrer", referrerOrNone referrer)]
                         markTags := [] }]
      tracingTags := _add_tags hasSpan timer Option.none }
  else ⟨[], [], []⟩

/-- The record_invalid_request entry point: the failure path at the
invalid-request status. -/
def record_invalid_request (settings : Settings) (hasSpan : Bool)
    (timer : Timer) (referrer : Option String) : Effects :=
  _record_failure_building_request settings hasSpan QueryStatus.invalidRequest
    timer referrer

/-- The record_error_building_request entry point: the failure path at the
error status. -/
def record_error_building_request (settings : Settings) (hasSpan : Bool)
    (timer : Timer) (referrer : Option String) : Effects :=
  _record_failure_building_request settings hasSpan QueryStatus.error
    timer referrer

end Querylog

namespace Sessions

/-- Claim C1: in the manual-events scenario, aggregating over the full
window with no bucketing returns the single row sessions 20,
sessions_errored 10, users 2, users_errored 1. -/
theorem manual_session_aggregation :
    aggregateTotals (manualStart - 10800) (manualStart + 10800) manualSessionEvents
      = { sessions := 20, sessions_errored := 10, users := 2, users_errored := 1 } := by
  decide

/-- Claim C5: at each granularity 60, 120 and 600 seconds the bucketed
scenario yields exactly three non-empty buckets, one per distinct offset,
and in ascending bucket-start order the counters are sessions 7,
sessions_errored 2, users 1, users_errored 1, then 1, 0, 1, 0, then
2, 2, 1, 1. -/
theorem session_small_granularity :
    aggregate (manualStart - 10800) (manualStart + 10800) 60 bucketedSessionEvents
      = [(manualStart, ⟨7, 2, 1, 1⟩), (manualStart + 780, ⟨1, 0, 1, 0⟩),
         (manualStart + 1440, ⟨2, 2, 1, 1⟩)]
    ∧ aggregate (manualStart - 10800) (manualStart + 10800) 120 bucketedSessionEvents
      = [(manualStart, ⟨7, 2, 1, 1⟩), (manualStart + 720, ⟨1, 0, 1, 0⟩),
         (manualStart + 1440, ⟨2, 2, 1, 1⟩)]
    ∧ aggregate (manualStart - 10800) (manualStart + 10800) 600 bucketedSessionEvents
      = [(manualStart, ⟨7, 2, 1, 1⟩), (manualStart + 600, ⟨1, 0, 1, 0⟩),
         (manualStart + 1200, ⟨2, 2, 1, 1⟩)] := by
  refine ⟨by decide, by decide, by decide⟩

theorem mergeSession_eq_or (a b : SessionEvent) :
    mergeSession a b = a ∨ mergeSession a b = b := by
  unfold mergeSession
  split_ifs <;> simp

theorem seq_le_mergeSession_left (a b : SessionEvent) :
    a.seq ≤ (mergeSession a b).seq := by
  unfold mergeSession
  split_ifs with h1 h2 <;> omega

theorem seq_le_mergeSession_right (a b : SessionEvent) :
    b.seq ≤ (mergeSession a b).seq := by
  unfold mergeSession
  split_ifs with h1 h2 <;> omega

theorem foldl_mergeSession_mem (es : List SessionEvent) (a : SessionEvent) :
    es.foldl mergeSession a ∈ a :: es := by
  induction es generalizing a with
  | nil => simp
  | cons b es ih =>
    simp only [List.foldl_cons]
    have h := ih (mergeSession a b)
    rcases List.mem_cons.mp h with h2 | h2
    · rw [h2]
      rcases mergeSession_eq_or a b with h3 | h3 <;> rw [h3] <;> simp
    · exact List.mem_cons_of_mem _ (List.mem_cons_of_mem _ h2)

theorem seq_le_foldl_mergeSession (es : List SessionEvent) (a : SessionEvent) :
    ∀ x ∈ a :: es, x.seq ≤ (es.foldl mergeSession a).seq := by
  induction es generalizing a with
  | nil =>
    intro x hx
    simp only [List.mem_singleton] at hx
    simp only [List.foldl_nil]
    rw [hx]
  | cons b es ih =>
    intro x hx
    simp only [List.foldl_cons]
    have hhead := ih (mergeSession a b) (mergeSession a b) (List.mem_cons_self _ _)
    rcases List.mem_cons.mp hx with h2 | h2
    · subst h2
      exact le_trans (seq_le_mergeSession_left x b) hhead
    · rcases List.mem_cons.mp h2 with h3 | h3
      · subst h3
        exact le_trans (seq_le_mergeSession_right a x) hhead
      · exact ih (mergeSession a b) x (List.mem_cons_of_mem _ h3)

/-- Claim C2: for a non-empty collection of events sharing one non-empty
session_id and with pairwise distinct sequence numbers, reduction returns
the single event of maximum seq itself — events with smaller seq are
discarded whole, not merged field-by-field — and any permutation of the
collection reduces to that same event. -/
theorem reduce_session_max_seq (l : List SessionEvent) (s : String)
    (hne : l ≠ [])
    (hid : ∀ e ∈ l, e.session_id = s)
    (hs : noSessionId s = false)
    (hseq : l.Pairwise (fun a b => a.seq ≠ b.seq)) :
    ∃ m, reduceSession l = some m ∧ m ∈ l ∧ (∀ e ∈ l, e.seq ≤ m.seq) ∧
      ∀ l', l.Perm l' → reduceSession l' = some m := by
  have hsymm : Symmetric (fun a b : SessionEvent => a.seq ≠ b.seq) :=
    fun x y h e => h e.symm
  obtain ⟨e, es, rfl⟩ : ∃ e es, l = e :: es := by
    cases l with
    | nil => exact absurd rfl hne
    | cons e es => exact ⟨e, es, rfl⟩
  refine ⟨es.foldl mergeSession e, rfl, foldl_mergeSession_mem es e,
    seq_le_foldl_mergeSession es e, ?_⟩
  intro l' hp
  obtain ⟨e', es', rfl⟩ : ∃ e' es', l' = e' :: es' := by
    cases l' with
    | nil => exact absurd hp.length_eq (by simp)
    | cons e' es' => exact ⟨e', es', rfl⟩
  have hm := foldl_mergeSession_mem es e
  have hm' : es'.foldl mergeSession e' ∈ e :: es :=
    hp.mem_iff.mpr (foldl_mergeSession_mem es' e')
  have hle : (es'.foldl mergeSession e').seq ≤ (es.foldl mergeSession e).seq :=
    seq_le_foldl_mergeSession es e _ hm'
  have hge : (es.foldl mergeSession e).seq ≤ (es'.foldl mergeSession e').seq :=
    seq_le_foldl_mergeSession es' e' _ (hp.mem_iff.mp hm)
  by_cases heq : es'.foldl mergeSession e' = es.foldl mergeSession e
  · rw [reduceSession, heq]
  · exact absurd (le_antisymm hge hle) (hseq.forall hsymm hm hm' (Ne.symm heq))

/-- Witness for C2 at the concrete two-update input. -/
theorem reduce_session_max_seq_witness :
    ∃ m, reduceSession sampleReductionEvents = some m ∧
      m ∈ sampleReductionEvents ∧
      (∀ e ∈ sampleReductionEvents, e.seq ≤ m.seq) ∧
      ∀ l', sampleReductionEvents.Perm l' → reduceSession l' = some m :=
  reduce_session_max_seq sampleReductionEvents "s1" (by decide) (by decide)
    (by decide) (by decide)

theorem sum_map_filter_le (p : SessionEvent → Bool) (f : SessionEvent → Nat)
    (l : List SessionEvent) :
    ((l.filter p).map f).sum ≤ (l.map f).sum := by
  induction l with
  | nil => simp
  | cons a l ih =>
    rw [List.filter_cons]
    by_cases h : p a
    · simp only [h, if_pos, List.map_cons, List.sum_cons]
      exact Nat.add_le_add_left ih _
    · simp only [h, Bool.false_eq_true, if_neg, List.map_cons, List.sum_cons,
        not_false_iff]
      exact le_trans ih (Nat.le_add_left _ _)

theorem dedup_length_le_of_sublist {l₁ l₂ : List String} (h : l₁.Sublist l₂) :
    l₁.dedup.length ≤ l₂.dedup.length := by
  rw [← List.card_toFinset, ← List.card_toFinset]
  exact Finset.card_le_card fun x hx =>
    List.mem_toFinset.mpr (h.subset (List.mem_toFinset.mp hx))

theorem computeBucket_invariant (l : List SessionEvent) :
    (computeBucket l).sessions_errored ≤ (computeBucket l).sessions ∧
    (computeBucket l).users_errored ≤ (computeBucket l).users := by
  constructor
  · exact sum_map_filter_le _ _ l
  · exact dedup_length_le_of_sublist
      (List.Sublist.filterMap _ (List.filter_sublist l))

/-- Claim C6: every row of the bucketed aggregator satisfies
sessions_errored at most sessions and users_errored at most users. -/
theorem bucket_counters_invariant (tFrom tTo g : Nat) (events : List SessionEvent)
    (row : Nat × BucketCounters) (hrow : row ∈ aggregate tFrom tTo g events) :
    row.2.sessions_errored ≤ row.2.sessions ∧ row.2.users_errored ≤ row.2.users := by
  unfold aggregate at hrow
  obtain ⟨b, hb, hrow⟩ := List.mem_map.mp hrow
  rw [← hrow]
  exact computeBucket_invariant _

/-- Witness for C6 at a concrete bucket of the bucketed scenario. -/
theorem bucket_counters_invariant_witness :
    ((manualStart, ⟨7, 2, 1, 1⟩) : Nat × BucketCounters).2.sessions_errored
        ≤ ((manualStart, ⟨7, 2, 1, 1⟩) : Nat × BucketCounters).2.sessions ∧
    ((manualStart, ⟨7, 2, 1, 1⟩) : Nat × BucketCounters).2.users_errored
        ≤ ((manualStart, ⟨7, 2, 1, 1⟩) : Nat × BucketCounters).2.users :=
  bucket_counters_invariant (manualStart - 10800) (manualStart + 10800) 60
    bucketedSessionEvents _ (by decide)

theorem sum_map_filter_partition (p : SessionEvent → Bool) (f : SessionEvent → Nat)
    (l : List SessionEvent) :
    (l.map f).sum
      = ((l.filter p).map f).sum + ((l.filter (fun e => !p e)).map f).sum := by
  induction l with
  | nil => simp
  | cons a l ih =>
    by_cases h : p a <;>
      simp only [List.filter_cons, h, Bool.not_true, Bool.not_false, if_pos,
        if_neg, Bool.false_eq_true, not_false_iff, List.map_cons, List.sum_cons,
        ih] <;>
      omega

theorem reduceSession_mem {l : List SessionEvent} {m : SessionEvent}
    (h : reduceSession l = some m) : m ∈ l := by
  cases l with
  | nil => exact absurd h (by simp [reduceSession])
  | cons e es =>
    have : es.foldl mergeSession e = m := by
      simpa [reduceSession] using h
    exact this ▸ foldl_mergeSession_mem es e

theorem contributing_filter_pre (events : List SessionEvent) :
    (contributingEvents events).filter (fun e => noSessionId e.session_id)
      = events.filter (fun e => noSessionId e.session_id) := by
  unfold contributingEvents
  rw [List.filter_append]
  have h1 : (((events.filter (fun e => !noSessionId e.session_id)).map
        (fun e => e.session_id)).dedup.filterMap
          (fun i => reduceSession ((events.filter
            (fun e => !noSessionId e.session_id)).filter
              (fun e => e.session_id = i)))).filter
        (fun e => noSessionId e.session_id) = [] := by
    rw [List.filter_eq_nil_iff]
    intro x hx
    obtain ⟨i, hi, hred⟩ := List.mem_filterMap.mp hx
    have hxmem := reduceSession_mem hred
    have hxind : x ∈ events.filter (fun e => !noSessionId e.session_id) :=
      (List.mem_filter.mp hxmem).1
    have := (List.mem_filter.mp hxind).2
    simp only [Bool.not_eq_true'] at this
    simp [this]
  rw [h1, List.nil_append, List.filter_filter]
  congr 1
  funext e
  cases noSessionId e.session_id <;> simp

/-- Claim C7: pre-aggregated events bypass session reduction: they reach
the aggregator verbatim and unmerged; every bucket's sessions sum splits
into the independent full-quantity contributions of its pre-aggregated and
its individual events, likewise the sessions_errored sum over the errored
events; and the distinct-user count of a bucket never exceeds its number
of contributing events — at most one identifier per event, regardless of
quantity. -/
theorem preaggregated_bypass (events : List SessionEvent) (g b : Nat) :
    (contributingEvents events).filter (fun e => noSessionId e.session_id)
        = events.filter (fun e => noSessionId e.session_id)
    ∧ (computeBucket (bucketEvents g b (contributingEvents events))).sessions
        = (((bucketEvents g b (contributingEvents events)).filter
              (fun e => noSessionId e.session_id)).map (fun e => e.quantity)).sum
          + (((bucketEvents g b (contributingEvents events)).filter
              (fun e => !noSessionId e.session_id)).map (fun e => e.quantity)).sum
    ∧ (computeBucket (bucketEvents g b (contributingEvents events))).sessions_errored
        = ((((bucketEvents g b (contributingEvents events)).filter
              (fun e => erroredCategory e.status)).filter
              (fun e => noSessionId e.session_id)).map (fun e => e.quantity)).sum
          + ((((bucketEvents g b (contributingEvents events)).filter
              (fun e => erroredCategory e.status)).filter
              (fun e => !noSessionId e.session_id)).map (fun e => e.quantity)).sum
    ∧ (computeBucket (bucketEvents g b (contributingEvents events))).users
        ≤ (bucketEvents g b (contributingEvents events)).length := by
  refine ⟨contributing_filter_pre events, ?_, ?_, ?_⟩
  · exact sum_map_filter_partition _ _ _
  · exact sum_map_filter_partition _ _ _
  · calc (computeBucket (bucketEvents g b (contributingEvents events))).users
        ≤ ((bucketEvents g b (contributingEvents events)).filterMap
            (fun e => if e.distinct_id = "" then none else some e.distinct_id)).length :=
          List.Sublist.length_le (List.dedup_sublist _)
      _ ≤ (bucketEvents g b (contributingEvents events)).length :=
          List.length_filterMap_le _ _

/-- Claim C3: a query at granularity at most 60 seconds over a span longer
than 7 hours is rejected, with no aggregation output, as an invalid_query
error with the exact minute-resolution message; the same query at a
granularity above 60 seconds succeeds. -/
theorem minute_granularity_range (tFrom tTo g g' : Nat)
    (events : List SessionEvent)
    (hg : g ≤ 60) (hspan : tTo - tFrom > 7 * 3600) (hg' : g' > 60) :
    runSessionsQuery tFrom tTo g events
        = .error ⟨"invalid_query",
            "Minute-resolution queries are restricted to a 7-hour time window."⟩
    ∧ runSessionsQuery tFrom tTo g' events
        = .ok (aggregate tFrom tTo g' events) := by
  constructor
  · unfold runSessionsQuery validateGranularityWindow
    rw [if_pos ⟨hg, hspan⟩]
  · unfold runSessionsQuery validateGranularityWindow
    rw [if_neg (fun h => by omega)]

/-- Witness for C3: granularity 60 over a 12-hour span is rejected and
granularity 600 over the same span succeeds. -/
theorem minute_granularity_range_witness :
    runSessionsQuery (manualStart - 21600) (manualStart + 21600) 60
        bucketedSessionEvents
      = .error ⟨"invalid_query",
          "Minute-resolution queries are restricted to a 7-hour time window."⟩
    ∧ runSessionsQuery (manualStart - 21600) (manualStart + 21600) 600
        bucketedSessionEvents
      = .ok (aggregate (manualStart - 21600) (manualStart + 21600) 600
          bucketedSessionEvents) :=
  minute_granularity_range (manualStart - 21600) (manualStart + 21600) 60 600
    bucketedSessionEvents (by decide) (by decide) (by decide)

/-- Claim C4: a create request whose query selects at most 2 aggregation
invocations is registered with an identifier of the partition slash token
form, and one selecting 3 aggregation invocations is rejected with the
exact maximum-of-2-aggregations invalid_query error, with no identifier
assigned. -/
theorem subscription_aggregation_limit (isAggregation : String → Bool)
    (partitionOf : Nat → Nat) (token : String) (req : SubscriptionRequest) :
    (aggregationCount isAggregation req.query ≤ 2 →
      createSubscription isAggregation partitionOf token req
        = .ok (toString (partitionOf req.project_id) ++ "/" ++ token))
    ∧ (aggregationCount isAggregation req.query = 3 →
      createSubscription isAggregation partitionOf token req
        = .error ⟨"invalid_query",
            "A maximum of 2 aggregations are allowed in the select"⟩) := by
  constructor
  · intro h
    unfold createSubscription
    rw [if_neg (by omega)]
  · intro h
    unfold createSubscription
    rw [if_pos (by omega)]

/-- Witness for C4 at the two concrete subscription requests. -/
theorem subscription_aggregation_limit_witness :
    createSubscription sampleIsAggregation (fun _ => 0)
        "ce0cc90e0c9d11ebb74eacde48001122" sampleGoodRequest
      = .ok "0/ce0cc90e0c9d11ebb74eacde48001122"
    ∧ createSubscription sampleIsAggregation (fun _ => 0)
        "ce0cc90e0c9d11ebb74eacde48001122" sampleBadRequest
      = .error ⟨"invalid_query",
          "A maximum of 2 aggregations are allowed in the select"⟩ := by
  have hok := (subscription_aggregation_limit sampleIsAggregation (fun _ => 0)
    "ce0cc90e0c9d11ebb74eacde48001122" sampleGoodRequest).1 (by decide)
  have hbad := (subscription_aggregation_limit sampleIsAggregation (fun _ => 0)
    "ce0cc90e0c9d11ebb74eacde48001122" sampleBadRequest).2 (by decide)
  exact ⟨hok, hbad⟩

end Sessions

namespace Querylog

/-- Claim C8: with query recording enabled, record_query sends the timer's
metrics tagged with the query status, the request referrer and the final
flag, and both failure-recording entry points send metrics tagged with
their status and the referrer. -/
theorem query_metrics_emitted (settings : Settings) (hasSpan : Bool)
    (request : Request) (timer : Timer) (query_metadata : SnubaQueryMetadata)
    (referrer : Option String) (hrec : settings.RECORD_QUERIES = true) :
    (record_query settings hasSpan request timer query_metadata).metricsSends
      = [{ tags := [("status", query_metadata.status.value),
                    ("referrer", referrerOrNone request.referrer),
                    ("final", pyStr request.query.get_final)]
           markTags := [("final", pyStr request.query.get_final),
                        ("referrer", referrerOrNone request.referrer)] }]
    ∧ (record_invalid_request settings hasSpan timer referrer).metricsSends
      = [{ tags := [("status", QueryStatus.invalidRequest.value),
                    ("referrer", referrerOrNone referrer)]
           markTags := [] }]
    ∧ (record_error_building_request settings hasSpan timer referrer).metricsSends
      = [{ tags := [("status", QueryStatus.error.value),
                    ("referrer", referrerOrNone referrer)]
           markTags := [] }] := by
  unfold record_query record_invalid_request record_error_building_request
    _record_failure_building_request
  simp [hrec]

/-- Witness for C8 at concrete recorder inputs. -/
theorem query_metrics_emitted_witness :
    (record_query ⟨true⟩ true ⟨some ("tagstore"), ⟨false, []⟩⟩ ⟨"<1s"⟩
        ⟨QueryStatus.success, []⟩).metricsSends
      = [{ tags := [("status", "success"), ("referrer", "tagstore"),
                    ("final", "False")]
           markTags := [("final", "False"), ("referrer", "tagstore")] }]
    ∧ (record_invalid_request ⟨true⟩ true ⟨"<1s"⟩ Option.none).metricsSends
      = [{ tags := [("status", "invalid-request"), ("referrer", "none")]
           markTags := [] }]
    ∧ (record_error_building_request ⟨true⟩ true ⟨"<1s"⟩ Option.none).metricsSends
      = [{ tags := [("status", "error"), ("referrer", "none")]
           markTags := [] }] := by
  have h := query_metrics_emitted ⟨true⟩ true ⟨some ("tagstore"), ⟨false, []⟩⟩
    ⟨"<1s"⟩ ⟨QueryStatus.success, []⟩ Option.none rfl
  exact ⟨by simpa using h.1, by simpa using h.2.1, by simpa using h.2.2⟩

/-- Claim C9: with the RECORD_QUERIES flag disabled, all three recording
entry points are complete no-ops: no query-log record is written, no
metrics are sent and no tracing tags are set. -/
theorem record_queries_disabled_noop (settings : Settings) (hasSpan : Bool)
    (request : Request) (timer : Timer) (query_metadata : SnubaQueryMetadata)
    (referrer : Option String) (hrec : settings.RECORD_QUERIES = false) :
    record_query settings hasSpan request timer query_metadata = ⟨[], [], []⟩
    ∧ record_invalid_request settings hasSpan timer referrer = ⟨[], [], []⟩
    ∧ record_error_building_request settings hasSpan timer referrer
        = ⟨[], [], []⟩ := by
  unfold record_query record_invalid_request record_error_building_request
    _record_failure_building_request
  simp [hrec]

/-- Witness for C9 at concrete recorder inputs. -/
theorem record_queries_disabled_noop_witness :
    record_query ⟨false⟩ true ⟨some ("tagstore"), ⟨true, [("exp", "1")]⟩⟩ ⟨">30s"⟩
        ⟨QueryStatus.error, [("k", "v")]⟩ = ⟨[], [], []⟩
    ∧ record_invalid_request ⟨false⟩ true ⟨">30s"⟩ (some ("tagstore")) = ⟨[], [], []⟩
    ∧ record_error_building_request ⟨false⟩ true ⟨">30s"⟩ (some ("tagstore"))
        = ⟨[], [], []⟩ :=
  record_queries_disabled_noop ⟨false⟩ true ⟨some ("tagstore"), ⟨true, [("exp", "1")]⟩⟩
    ⟨">30s"⟩ ⟨QueryStatus.error, [("k", "v")]⟩ (some ("tagstore")) rfl

/-- Claim C10: every metrics send of record_query and of the
failure-recording paths carries the coalesced referrer as its referrer
tag; the coalesced referrer is never the empty string and is the literal
none whenever the referrer is missing or empty. -/
theorem referrer_tag_never_missing (settings : Settings) (hasSpan : Bool)
    (request : Request) (timer : Timer) (query_metadata : SnubaQueryMetadata)
    (referrer : Option String) :
    (∀ send ∈ (record_query settings hasSpan request timer
        query_metadata).metricsSends,
        ("referrer", referrerOrNone request.referrer) ∈ send.tags)
    ∧ (∀ send ∈ (record_invalid_request settings hasSpan timer
        referrer).metricsSends,
        ("referrer", referrerOrNone referrer) ∈ send.tags)
    ∧ (∀ send ∈ (record_error_building_request settings hasSpan timer
        referrer).metricsSends,
        ("referrer", referrerOrNone referrer) ∈ send.tags)
    ∧ (∀ r : Option String, referrerOrNone r ≠ "")
    ∧ (∀ r : Option String, r = Option.none ∨ r = some ("") →
        referrerOrNone r = "none") := by
  refine ⟨?_, ?_, ?_, ?_, ?_⟩
  · intro send hsend
    unfold record_query at hsend
    by_cases h : settings.RECORD_QUERIES <;> simp [h] at hsend
    subst hsend
    simp
  · intro send hsend
    unfold record_invalid_request _record_failure_building_request at hsend
    by_cases h : settings.RECORD_QUERIES <;> simp [h] at hsend
    subst hsend
    simp
  · intro send hsend
    unfold record_error_building_request _record_failure_building_request at hsend
    by_cases h : settings.RECORD_QUERIES <;> simp [h] at hsend
    subst hsend
    simp
  · intro r
    cases r with
    | none => simp [referrerOrNone]
    | some s =>
      show (if s = "" then "none" else s) ≠ ""
      split_ifs with h
      · simp
      · simpa using h
  · intro r hr
    rcases hr with hr | hr <;> rw [hr] <;> simp [referrerOrNone]

/-- Witness for C10 at concrete recorder inputs. -/
theorem referrer_tag_never_missing_witness :
    (∀ send ∈ (record_query ⟨true⟩ false ⟨some (""), ⟨true, []⟩⟩ ⟨"<1s"⟩
        ⟨QueryStatus.success, []⟩).metricsSends,
        ("referrer", referrerOrNone (some (""))) ∈ send.tags)
    ∧ (∀ send ∈ (record_invalid_request ⟨true⟩ false ⟨"<1s"⟩
        Option.none).metricsSends,
        ("referrer", referrerOrNone Option.none) ∈ send.tags)
    ∧ (∀ send ∈ (record_error_building_request ⟨true⟩ false ⟨"<1s"⟩
        Option.none).metricsSends,
        ("referrer", referrerOrNone Option.none) ∈ send.tags)
    ∧ (∀ r : Option String, referrerOrNone r ≠ "")
    ∧ (∀ r : Option String, r = Option.none ∨ r = some ("") →
        referrerOrNone r = "none") :=
  referrer_tag_never_missing ⟨true⟩ false ⟨some (""), ⟨true, []⟩⟩ ⟨"<1s"⟩
    ⟨QueryStatus.success, []⟩ Option.none

end Querylog
